import Mathlib

/-!
Shallow embedding of the dav1d-rs wrapper (src/lib.rs): the error
classifier, the decoder submit/retrieve loop, picture metadata accessors
and per-plane geometry. The external dav1d engine is opaque; it is
modelled as an abstract state machine supplying the return codes and
pictures that the wrapper reacts to.
-/

namespace Dav1d

/-- Mirrors `pub struct Error(i32)`: a wrapped native status code. -/
structure Error where
  code : Int
  deriving DecidableEq, Repr

/-- Mirrors `Error::is_again`. The Rust code reads the platform constant
`EAGAIN` (an `i32`); here it is passed explicitly so both platform sign
conventions are covered:
`const AGAIN: i32 = EAGAIN as i32; if AGAIN < 0 { self.0 == AGAIN } else { self.0 == -AGAIN }`. -/
def Error.is_again (eagain : Int) (e : Error) : Bool :=
  if eagain < 0 then e.code == eagain else e.code == -eagain

/-- Mirrors `pub enum PixelLayout`. -/
inductive PixelLayout where
  | I400
  | I420
  | I422
  | I444
  | Unknown
  deriving DecidableEq, Repr

/-- Mirrors `pub enum PlanarImageComponent`. -/
inductive PlanarImageComponent where
  | Y
  | U
  | V
  deriving DecidableEq, Repr

/-- Mirrors `impl From<usize> for PlanarImageComponent`; the `_` arm of the
Rust `match` diverges (`panic!("Invalid YUV index")`), rendered as `none`. -/
def PlanarImageComponent.fromUsize (index : Nat) : Option PlanarImageComponent :=
  match index with
  | 0 => some PlanarImageComponent.Y
  | 1 => some PlanarImageComponent.U
  | 2 => some PlanarImageComponent.V
  | _ => none

/-- Mirrors `impl From<PlanarImageComponent> for usize`. -/
def PlanarImageComponent.toUsize : PlanarImageComponent → Nat
  | PlanarImageComponent.Y => 0
  | PlanarImageComponent.U => 1
  | PlanarImageComponent.V => 2

/-- The fields of the native `Dav1dSequenceHeader` that the wrapper reads:
only the high-bit-depth indicator `hbd` (a C `int`). -/
structure Dav1dSequenceHeader where
  hbd : Int
  deriving DecidableEq, Repr

/-- The native `Dav1dDataProps` metadata record: three signed 64-bit timing
fields plus the remaining fields the wrapper never writes, abstracted as
`size` and `user_data`. -/
structure Dav1dDataProps where
  timestamp : Int
  duration : Int
  offset : Int
  size : Nat
  user_data : Int
  deriving DecidableEq, Repr

/-- The native `Dav1dPictureParameters` fields the wrapper reads: the pixel
layout tag (a C enum, kept as its raw `Nat` value), width, height and bit
depth (C `int`). -/
structure Dav1dPictureParameters where
  layout : Nat
  w : Int
  h : Int
  bpc : Int
  deriving DecidableEq, Repr

/-- The fields of the native `Dav1dPicture` frame record that the wrapper
reads. `seq_hdr` is a possibly-null pointer, rendered as an `Option`;
`stride` holds two `ptrdiff_t` values (slot 0 for luma, slot 1 for chroma). -/
structure Dav1dPicture where
  seq_hdr : Option Dav1dSequenceHeader
  p : Dav1dPictureParameters
  stride0 : Int
  stride1 : Int
  m : Dav1dDataProps
  deriving DecidableEq, Repr

/-- Native pixel layout enum values from the dav1d headers. -/
def DAV1D_PIXEL_LAYOUT_I400 : Nat := 0

def DAV1D_PIXEL_LAYOUT_I420 : Nat := 1

def DAV1D_PIXEL_LAYOUT_I422 : Nat := 2

def DAV1D_PIXEL_LAYOUT_I444 : Nat := 3

/-- Mirrors `pub struct Picture { inner: Arc<InnerPicture> }`; the reference
counting is irrelevant to the claims, so the payload is kept directly. -/
structure Picture where
  pic : Dav1dPicture
  deriving DecidableEq, Repr

/-- The effect of a Rust `as u32` cast on a wider signed value: reduction
modulo 2^32. -/
def u32cast (x : Int) : Nat := (x % (2 ^ 32 : Int)).toNat

/-- Mirrors `Picture::stride`: luma reads stride slot 0, chroma slot 1, cast
`as u32`. -/
def Picture.stride (pict : Picture) (component : PlanarImageComponent) : Nat :=
  match component with
  | PlanarImageComponent.Y => u32cast pict.pic.stride0
  | _ => u32cast pict.pic.stride1

/-- Mirrors `Picture::width` (`pic.p.w as u32`). -/
def Picture.width (pict : Picture) : Nat := u32cast pict.pic.p.w

/-- Mirrors `Picture::height` (`pic.p.h as u32`). -/
def Picture.height (pict : Picture) : Nat := u32cast pict.pic.p.h

/-- Mirrors `Picture::pixel_layout`: matches the native layout tag against
the four known enum values, anything else is `Unknown`. -/
def Picture.pixel_layout (pict : Picture) : PixelLayout :=
  if pict.pic.p.layout = DAV1D_PIXEL_LAYOUT_I400 then PixelLayout.I400
  else if pict.pic.p.layout = DAV1D_PIXEL_LAYOUT_I420 then PixelLayout.I420
  else if pict.pic.p.layout = DAV1D_PIXEL_LAYOUT_I422 then PixelLayout.I422
  else if pict.pic.p.layout = DAV1D_PIXEL_LAYOUT_I444 then PixelLayout.I444
  else PixelLayout.Unknown

/-- Mirrors `Picture::plane_data_geometry`: returns `(stride, height)` for a
component; the `PixelLayout::Unknown` chroma arm is `unreachable!()` in the
source (a panic), rendered as `none`. -/
def Picture.plane_data_geometry (pict : Picture) (component : PlanarImageComponent) :
    Option (Nat × Nat) :=
  match component with
  | PlanarImageComponent.Y => some (pict.stride component, pict.height)
  | _ =>
    match pict.pixel_layout with
    | PixelLayout.I420 => some (pict.stride component, (pict.height + 1) / 2)
    | PixelLayout.I400 => some (pict.stride component, pict.height)
    | PixelLayout.I422 => some (pict.stride component, pict.height)
    | PixelLayout.I444 => some (pict.stride component, pict.height)
    | PixelLayout.Unknown => none

/-- Mirrors `pub struct Plane(Picture, PlanarImageComponent)`. -/
structure Plane where
  picture : Picture
  component : PlanarImageComponent
  deriving DecidableEq, Repr

/-- Mirrors `Picture::plane`. -/
def Picture.plane (pict : Picture) (component : PlanarImageComponent) : Plane :=
  Plane.mk pict component

/-- The byte length of the slice exposed by `impl AsRef<[u8]> for Plane`:
`(stride * height) as usize` with `stride, height : u32`, so the product is
u32 arithmetic (modulo 2^32); `none` when the geometry computation panics. -/
def Plane.as_ref_len (pl : Plane) : Option Nat :=
  (pl.picture.plane_data_geometry pl.component).map
    (fun g => (g.1 * g.2) % 2 ^ 32)

/-- Mirrors `pub struct BitsPerComponent(pub usize)`. -/
structure BitsPerComponent where
  bits : Nat
  deriving DecidableEq, Repr

/-- Mirrors `Picture::bits_per_component`, which dereferences
`pic.seq_hdr` unguarded; a null header (the outer `none`) is the latent
fault the spec flags, every non-null header gives the inner option of the
Rust signature. -/
def Picture.bits_per_component (pict : Picture) : Option (Option BitsPerComponent) :=
  pict.pic.seq_hdr.map fun hdr =>
    if hdr.hbd = 0 then some (BitsPerComponent.mk 8)
    else if hdr.hbd = 1 then some (BitsPerComponent.mk 10)
    else if hdr.hbd = 2 then some (BitsPerComponent.mk 12)
    else none

/-- The minimum representable signed 64-bit integer, the native sentinel for
an absent timestamp. -/
def i64_min : Int := -(2 ^ 63)

/-- Mirrors `Picture::timestamp`: the `i64::MIN` sentinel becomes `None`. -/
def Picture.timestamp (pict : Picture) : Option Int :=
  if pict.pic.m.timestamp = i64_min then none else some pict.pic.m.timestamp

/-- Mirrors `Picture::duration`. -/
def Picture.duration (pict : Picture) : Int := pict.pic.m.duration

/-- Mirrors `Picture::offset`. -/
def Picture.offset (pict : Picture) : Int := pict.pic.m.offset

/-- Mirrors `Picture::bit_depth` (`pic.p.bpc as usize`). -/
def Picture.bit_depth (pict : Picture) : Int := pict.pic.p.bpc

end Dav1d

namespace Dav1d

/-- Claim C4: the retryable test returns true iff the code equals the
platform EAGAIN value normalized to the native sign convention (the stored
code equals EAGAIN when EAGAIN is negative, and minus EAGAIN when EAGAIN is
positive); every other negative code is classified as fatal. -/
theorem is_again_iff_normalized_eagain (eagain : Int) (e : Error) :
    (e.is_again eagain = true ↔
      e.code = (if eagain < 0 then eagain else -eagain)) ∧
    (∀ c : Int, c < 0 → c ≠ (if eagain < 0 then eagain else -eagain) →
      (Error.mk c).is_again eagain = false) := by
  constructor
  · unfold Error.is_again
    by_cases h : eagain < 0 <;> simp [h]
  · intro c _hneg hne
    unfold Error.is_again
    by_cases h : eagain < 0 <;> simp [h] <;> simpa [h] using hne

/-- Claim C4 witness: at EAGAIN = 11 (positive convention) the code -11 is
retryable and the negative code -5 is fatal. -/
theorem is_again_iff_normalized_eagain_witness :
    (Error.mk (-11)).is_again 11 = true ∧ (Error.mk (-5)).is_again 11 = false :=
  ⟨(is_again_iff_normalized_eagain 11 (Error.mk (-11))).1.mpr (by decide),
   (is_again_iff_normalized_eagain 11 (Error.mk (-11))).2 (-5) (by decide) (by decide)⟩

/-- Claim C10: the usize-to-component conversion maps 0, 1, 2 to Y, U, V and
diverges (panics) on every larger index; it is total exactly on 0, 1, 2. -/
theorem fromUsize_total_iff_le_two :
    PlanarImageComponent.fromUsize 0 = some PlanarImageComponent.Y ∧
    PlanarImageComponent.fromUsize 1 = some PlanarImageComponent.U ∧
    PlanarImageComponent.fromUsize 2 = some PlanarImageComponent.V ∧
    ∀ i : Nat, (PlanarImageComponent.fromUsize i).isSome = decide (i ≤ 2) := by
  refine ⟨rfl, rfl, rfl, fun i => ?_⟩
  match i with
  | 0 => rfl
  | 1 => rfl
  | 2 => rfl
  | n + 3 =>
    simp [PlanarImageComponent.fromUsize]

/-- Claim C7: `timestamp()` is absent exactly when the native field holds the
minimum signed 64-bit integer, and otherwise returns the exact native value;
the sentinel is never surfaced. -/
theorem timestamp_sentinel_absent (pict : Picture) :
    (pict.timestamp = none ↔ pict.pic.m.timestamp = i64_min) ∧
    (∀ t : Int, pict.timestamp = some t →
      t = pict.pic.m.timestamp ∧ t ≠ i64_min) := by
  unfold Picture.timestamp
  constructor
  · by_cases h : pict.pic.m.timestamp = i64_min <;> simp [h]
  · intro t ht
    by_cases h : pict.pic.m.timestamp = i64_min
    · simp [h] at ht
    · simp [h] at ht
      exact ⟨ht.symm, ht ▸ h⟩

/-- A concrete picture used by witnesses: I420 layout, 64x60 frame, strides
128 and 64, timestamp 5, a sequence header with hbd = 1. -/
def testPicture : Picture :=
  Picture.mk
    (Dav1dPicture.mk (some (Dav1dSequenceHeader.mk 1))
      (Dav1dPictureParameters.mk 1 64 60 8) 128 64
      (Dav1dDataProps.mk 5 0 0 0 0))

/-- Claim C7 witness: the concrete picture with native timestamp 5 surfaces
`some 5`, equal to the native field. -/
theorem timestamp_sentinel_absent_witness :
    testPicture.timestamp = some 5 ∧ (5 : Int) = testPicture.pic.m.timestamp :=
  ⟨rfl, ((timestamp_sentinel_absent testPicture).2 5 rfl).1⟩

/-- Claim C6: with a non-null sequence header, `bits_per_component` maps the
high-bit-depth indicator 0, 1, 2 to 8, 10, 12 bits and anything else to the
unknown value. -/
theorem bits_per_component_hbd (pict : Picture) (hdr : Dav1dSequenceHeader)
    (h : pict.pic.seq_hdr = some hdr) :
    (hdr.hbd = 0 → pict.bits_per_component = some (some (BitsPerComponent.mk 8))) ∧
    (hdr.hbd = 1 → pict.bits_per_component = some (some (BitsPerComponent.mk 10))) ∧
    (hdr.hbd = 2 → pict.bits_per_component = some (some (BitsPerComponent.mk 12))) ∧
    (hdr.hbd ≠ 0 → hdr.hbd ≠ 1 → hdr.hbd ≠ 2 → pict.bits_per_component = some none) := by
  unfold Picture.bits_per_component
  rw [h]
  refine ⟨fun h0 => by simp [h0], fun h1 => by norm_num [h1],
    fun h2 => by norm_num [h2], fun h0 h1 h2 => by simp [h0, h1, h2]⟩

/-- Claim C6 witness: the concrete picture carries a header with indicator 1
and reports 10 bits per component. -/
theorem bits_per_component_hbd_witness :
    testPicture.bits_per_component = some (some (BitsPerComponent.mk 10)) :=
  (bits_per_component_hbd testPicture (Dav1dSequenceHeader.mk 1) rfl).2.1 rfl

/-- Claim C8: requesting the plane geometry of a chroma component on a
picture with Unknown pixel layout hits the `unreachable!()` arm and never
returns a height value. -/
theorem geometry_unknown_chroma_unreachable (pict : Picture) (c : PlanarImageComponent)
    (hlay : pict.pixel_layout = PixelLayout.Unknown) (hc : c ≠ PlanarImageComponent.Y) :
    pict.plane_data_geometry c = none := by
  match c with
  | PlanarImageComponent.Y => exact absurd rfl hc
  | PlanarImageComponent.U => simp [Picture.plane_data_geometry, hlay]
  | PlanarImageComponent.V => simp [Picture.plane_data_geometry, hlay]

/-- A concrete picture whose native layout tag 7 is outside the known enum
values, so its pixel layout is Unknown. -/
def testPictureUnknown : Picture :=
  Picture.mk
    (Dav1dPicture.mk none (Dav1dPictureParameters.mk 7 16 16 8) 16 8
      (Dav1dDataProps.mk 0 0 0 0 0))

/-- Claim C8 witness: the Unknown-layout picture yields no geometry for the
U component. -/
theorem geometry_unknown_chroma_unreachable_witness :
    testPictureUnknown.plane_data_geometry PlanarImageComponent.U = none :=
  geometry_unknown_chroma_unreachable testPictureUnknown PlanarImageComponent.U
    (by decide) (by decide)

/-- Modelled from the spec (§4.3): the effective height formula — frame
height for luma, and for chroma the frame height under I400/I422/I444 and
ceil(height / 2) under I420. Stated from the spec wording, to be compared
against the geometry the code computes. -/
def spec_effective_height (layout : PixelLayout) (height : Nat) :
    PlanarImageComponent → Nat
  | PlanarImageComponent.Y => height
  | _ =>
    match layout with
    | PixelLayout.I420 => (height + 1) / 2
    | _ => height

/-- Claim C3: for the four known layouts, the byte length of the slice
exposed by a plane equals stride times the spec effective height of its
component (given the product fits in u32), and the effective heights of the
U and V components agree. -/
theorem plane_len_eq_stride_mul_eff_height (pict : Picture) (c : PlanarImageComponent)
    (hlay : pict.pixel_layout ≠ PixelLayout.Unknown)
    (hfit : pict.stride c * pict.height < 2 ^ 32) :
    (pict.plane c).as_ref_len =
      some (pict.stride c *
        spec_effective_height pict.pixel_layout pict.height c) ∧
    (pict.plane_data_geometry PlanarImageComponent.U).map Prod.snd =
      (pict.plane_data_geometry PlanarImageComponent.V).map Prod.snd := by
  refine ⟨?_, ?_⟩
  · have hb : pict.stride c * ((pict.height + 1) / 2) ≤ pict.stride c * pict.height :=
      Nat.mul_le_mul_left _ (by omega)
    cases c <;> cases hl : pict.pixel_layout <;>
      first
      | exact absurd hl hlay
      | (simp [Plane.as_ref_len, Picture.plane, Picture.plane_data_geometry, hl,
           spec_effective_height]
         omega)
  · cases hl : pict.pixel_layout <;> simp [Picture.plane_data_geometry, hl]

/-- Claim C3 witness: the concrete I420 picture with chroma stride 64 and
height 60 exposes a U plane of 64 * 30 bytes, and the U and V effective
heights agree. -/
theorem plane_len_eq_stride_mul_eff_height_witness :
    (testPicture.plane PlanarImageComponent.U).as_ref_len =
      some (testPicture.stride PlanarImageComponent.U *
        spec_effective_height testPicture.pixel_layout testPicture.height
          PlanarImageComponent.U) ∧
    (testPicture.plane_data_geometry PlanarImageComponent.U).map Prod.snd =
      (testPicture.plane_data_geometry PlanarImageComponent.V).map Prod.snd :=
  plane_len_eq_stride_mul_eff_height testPicture PlanarImageComponent.U
    (by decide) (by decide)

/-- The native `Dav1dData` input buffer as this layer sees it: the remaining
byte count `sz` and the metadata record `m` (the data pointer itself plays
no role in the control flow). -/
structure Dav1dData where
  sz : Nat
  m : Dav1dDataProps
  deriving DecidableEq, Repr

/-- The `mem::zeroed()` initial value of a `Dav1dData`. -/
def Dav1dData.zeroed : Dav1dData :=
  Dav1dData.mk 0 (Dav1dDataProps.mk 0 0 0 0 0)

/-- Modelled from the spec: `dav1d_data_create` is an external engine call
(§6 submission boundary) that allocates engine storage for `len` bytes; per
§4.2 the metadata fields keep their zero-initialized defaults, so only the
remaining byte count is set. -/
def dav1d_data_create (len : Nat) : Dav1dData :=
  Dav1dData.mk len Dav1dData.zeroed.m

/-- Modelled from the spec: `dav1d_data_wrap` is the zero-copy external
engine call (§6); like `dav1d_data_create` it registers `len` readable
bytes and leaves the metadata at its zero-initialized defaults. -/
def dav1d_data_wrap (len : Nat) : Dav1dData :=
  Dav1dData.mk len Dav1dData.zeroed.m

/-- The three conditional metadata writes shared by `send_data` and
`decode`: each `if let Some` stores the value, a `None` leaves the field
untouched. -/
def apply_timing (offset timestamp duration : Option Int) (d : Dav1dData) : Dav1dData :=
  let d1 :=
    match offset with
    | some o => { d with m := { d.m with offset := o } }
    | none => d
  let d2 :=
    match timestamp with
    | some t => { d1 with m := { d1.m with timestamp := t } }
    | none => d1
  match duration with
  | some du => { d2 with m := { d2.m with duration := du } }
  | none => d2

/-- The external engine as an abstract state machine: `send` models
`dav1d_send_data` (it returns a status code and may consume bytes from the
buffer it was handed), `getPic` models `dav1d_get_picture` (a status code
or a decoded frame). -/
structure Engine (σ : Type) where
  send : σ → Dav1dData → Int × Dav1dData × σ
  getPic : σ → Except Error Picture × σ

/-- The outcome of one iteration of the decode loop body: either continue
with updated state or finish with a result. -/
inductive StepOut (σ : Type) where
  | cont (s : σ) (data : Dav1dData) (pictures : List Picture)
  | done (r : Except Error (List Picture))

/-- One iteration of the `while data.sz > 0` body of `Decoder::decode`:
send the data; a negative non-retryable status returns that error at once;
otherwise match `get_picture` — a picture is appended, a retryable error
continues, any other error breaks out with the pictures collected so far. -/
def decodeStep (eagain : Int) {σ : Type} (E : Engine σ) (s : σ) (data : Dav1dData)
    (pictures : List Picture) : StepOut σ :=
  let r := E.send s data
  let ret := r.1
  let data1 := r.2.1
  let s1 := r.2.2
  if ret < 0 ∧ (Error.mk ret).is_again eagain = false then
    StepOut.done (Except.error (Error.mk ret))
  else
    match E.getPic s1 with
    | (Except.ok p, s2) => StepOut.cont s2 data1 (pictures ++ [p])
    | (Except.error e, s2) =>
      if e.is_again eagain = true then StepOut.cont s2 data1 pictures
      else StepOut.done (Except.ok pictures)

/-- The `while data.sz > 0` loop of `Decoder::decode`, with fuel bounding
the number of iterations (the source loop has no intrinsic bound); `none`
means the fuel ran out before the loop finished. -/
def decodeLoop (eagain : Int) {σ : Type} (E : Engine σ) (fuel : Nat) (s : σ)
    (data : Dav1dData) (pictures : List Picture) :
    Option (Except Error (List Picture)) :=
  if data.sz = 0 then some (Except.ok pictures)
  else
    match fuel with
    | 0 => none
    | Nat.succ fuel1 =>
      match decodeStep eagain E s data pictures with
      | StepOut.done r => some r
      | StepOut.cont s2 data2 pics2 => decodeLoop eagain E fuel1 s2 data2 pics2

/-- The data record `Decoder::decode` hands to the engine: wrapped at the
buffer length, then the three conditional timing writes. -/
def decode_submitted (len : Nat) (offset timestamp duration : Option Int) : Dav1dData :=
  apply_timing offset timestamp duration (dav1d_data_wrap len)

/-- Mirrors `Decoder::decode` for a buffer of `len` bytes: wrap the data,
set the timing metadata, run the loop starting from an empty picture
vector. -/
def decode (eagain : Int) {σ : Type} (E : Engine σ) (fuel : Nat) (s : σ) (len : Nat)
    (offset timestamp duration : Option Int) :
    Option (Except Error (List Picture)) :=
  decodeLoop eagain E fuel s (decode_submitted len offset timestamp duration) []

/-- The data record `Decoder::send_data` hands to the engine: created at the
buffer length, then the three conditional timing writes. -/
def send_data_submitted (len : Nat) (offset timestamp duration : Option Int) : Dav1dData :=
  apply_timing offset timestamp duration (dav1d_data_create len)

/-- Mirrors `Decoder::send_data`: one engine send of the created data, a
negative status becomes an error. -/
def send_data {σ : Type} (E : Engine σ) (s : σ) (len : Nat)
    (offset timestamp duration : Option Int) : Except Error Unit × σ :=
  let r := E.send s (send_data_submitted len offset timestamp duration)
  if r.1 < 0 then (Except.error (Error.mk r.1), r.2.2)
  else (Except.ok (), r.2.2)

/-- The timing writes leave the remaining byte count unchanged. -/
theorem apply_timing_sz (offset timestamp duration : Option Int) (d : Dav1dData) :
    (apply_timing offset timestamp duration d).sz = d.sz := by
  unfold apply_timing
  cases offset <;> cases timestamp <;> cases duration <;> rfl

/-- Unfolding the decode loop once on a nonempty buffer. -/
theorem decodeLoop_succ (eagain : Int) {σ : Type} (E : Engine σ) (fuel : Nat) (s : σ)
    (data : Dav1dData) (pictures : List Picture) (hnz : ¬ data.sz = 0) :
    decodeLoop eagain E (fuel + 1) s data pictures =
      match decodeStep eagain E s data pictures with
      | StepOut.done r => some r
      | StepOut.cont s2 data2 pics2 => decodeLoop eagain E fuel s2 data2 pics2 := by
  conv_lhs => unfold decodeLoop
  simp [hnz]

/-- A loop-body iteration that finishes with an error value does so only in
the fatal-submission branch, so the error it carries is never retryable. -/
theorem decodeStep_done_error (eagain : Int) {σ : Type} (E : Engine σ) (s : σ)
    (data : Dav1dData) (pictures : List Picture) (e : Error)
    (h : decodeStep eagain E s data pictures = StepOut.done (Except.error e)) :
    e.is_again eagain = false := by
  unfold decodeStep at h
  by_cases hc : (E.send s data).1 < 0 ∧
      (Error.mk (E.send s data).1).is_again eagain = false
  · simp only [hc, if_pos, and_self, if_true] at h
    simp at h
    rw [← h]
    exact hc.2
  · simp only [hc, if_neg, if_false] at h
    cases hgp : E.getPic (E.send s data).2.2 with
    | mk res s2 =>
      cases res with
      | ok p => simp [hgp] at h
      | error e2 =>
        simp only [hgp] at h
        by_cases ha : e2.is_again eagain = true <;> simp [ha] at h

/-- Claim C9: in both `send_data` and `decode`, each timing attribute given
as `Some` is written into the buffer metadata that is submitted to the
engine, a `None` leaves the corresponding field at its zero-initialized
default, and no other metadata field or the byte count is modified by this
layer. -/
theorem timing_attrs_written_before_submit (len : Nat)
    (offset timestamp duration : Option Int) (d : Dav1dData) :
    ((apply_timing offset timestamp duration d).m.offset = offset.getD d.m.offset ∧
     (apply_timing offset timestamp duration d).m.timestamp =
       timestamp.getD d.m.timestamp ∧
     (apply_timing offset timestamp duration d).m.duration =
       duration.getD d.m.duration ∧
     (apply_timing offset timestamp duration d).m.size = d.m.size ∧
     (apply_timing offset timestamp duration d).m.user_data = d.m.user_data ∧
     (apply_timing offset timestamp duration d).sz = d.sz) ∧
    (send_data_submitted len offset timestamp duration).m.offset = offset.getD 0 ∧
    (send_data_submitted len offset timestamp duration).m.timestamp =
      timestamp.getD 0 ∧
    (send_data_submitted len offset timestamp duration).m.duration =
      duration.getD 0 ∧
    decode_submitted len offset timestamp duration =
      send_data_submitted len offset timestamp duration := by
  cases offset <;> cases timestamp <;> cases duration <;>
    simp [apply_timing, send_data_submitted, decode_submitted, dav1d_data_create,
      dav1d_data_wrap, Dav1dData.zeroed]

/-- Claim C5: decoding a zero-length buffer returns Ok with no pictures; the
loop body is never entered, whatever the engine would answer. -/
theorem decode_empty_buffer (eagain : Int) {σ : Type} (E : Engine σ) (fuel : Nat)
    (s : σ) (offset timestamp duration : Option Int) :
    decode eagain E fuel s 0 offset timestamp duration = some (Except.ok []) := by
  have h : (decode_submitted 0 offset timestamp duration).sz = 0 := by
    unfold decode_submitted
    rw [apply_timing_sz]
    rfl
  unfold decode decodeLoop
  simp [h]

/-- A concrete engine whose send always reports the fatal status -22 and
whose retrieval reports -22 as well. -/
def testEngineFatalSend : Engine Unit where
  send := fun s d => (-22, d, s)
  getPic := fun s => (Except.error (Error.mk (-22)), s)

/-- A concrete engine whose send succeeds without consuming bytes and whose
retrieval always reports the fatal status -7. -/
def testEngineGetFatal : Engine Unit where
  send := fun s d => (0, d, s)
  getPic := fun s => (Except.error (Error.mk (-7)), s)

/-- A concrete data record with 4 remaining bytes. -/
def testData4 : Dav1dData := Dav1dData.mk 4 (Dav1dDataProps.mk 0 0 0 0 0)

/-- Claim C1: on a buffer with remaining bytes, a submission returning a
negative non-retryable status makes the loop return that error at once, and
the pictures already collected (here the arbitrary accumulator) are
discarded from the result. -/
theorem decode_fatal_submit_aborts (eagain : Int) {σ : Type} (E : Engine σ)
    (fuel : Nat) (s : σ) (data : Dav1dData) (pictures : List Picture)
    (ret : Int) (data1 : Dav1dData) (s1 : σ)
    (hsz : 0 < data.sz)
    (hsend : E.send s data = (ret, data1, s1))
    (hneg : ret < 0)
    (hfatal : (Error.mk ret).is_again eagain = false) :
    decodeLoop eagain E (fuel + 1) s data pictures =
      some (Except.error (Error.mk ret)) := by
  have hnz : ¬ data.sz = 0 := by omega
  have hstep : decodeStep eagain E s data pictures =
      StepOut.done (Except.error (Error.mk ret)) := by
    unfold decodeStep
    simp [hsend, hneg, hfatal]
  rw [decodeLoop_succ eagain E fuel s data pictures hnz, hstep]

/-- Claim C1 witness: the always-fatal engine on a 4-byte buffer with one
already-collected picture returns the error -22 and no pictures. -/
theorem decode_fatal_submit_aborts_witness :
    decodeLoop 11 testEngineFatalSend 1 () testData4 [testPicture] =
      some (Except.error (Error.mk (-22))) :=
  decode_fatal_submit_aborts 11 testEngineFatalSend 0 () testData4 [testPicture]
    (-22) testData4 () (by decide) rfl (by decide) (by decide)

/-- Claim C2: when submission did not fail fatally, a retryable retrieval
error makes the loop continue, a fatal retrieval error ends the loop with Ok
and the pictures collected so far; and an error result of the loop is never
a retryable code (a retryable retrieval error is never the terminal error). -/
theorem decode_retrieval_error_semantics (eagain : Int) {σ : Type} (E : Engine σ) :
    (∀ (fuel : Nat) (s : σ) (data : Dav1dData) (pictures : List Picture)
        (ret : Int) (data1 : Dav1dData) (s1 : σ) (e : Error) (s2 : σ),
      0 < data.sz →
      E.send s data = (ret, data1, s1) →
      ¬ (ret < 0 ∧ (Error.mk ret).is_again eagain = false) →
      E.getPic s1 = (Except.error e, s2) →
      (e.is_again eagain = true →
        decodeLoop eagain E (fuel + 1) s data pictures =
          decodeLoop eagain E fuel s2 data1 pictures) ∧
      (e.is_again eagain = false →
        decodeLoop eagain E (fuel + 1) s data pictures =
          some (Except.ok pictures))) ∧
    (∀ (fuel : Nat) (s : σ) (data : Dav1dData) (pictures : List Picture) (e : Error),
      decodeLoop eagain E fuel s data pictures = some (Except.error e) →
      e.is_again eagain = false) := by
  constructor
  · intro fuel s data pictures ret data1 s1 e s2 hsz hsend hnf hget
    have hnz : ¬ data.sz = 0 := by omega
    constructor
    · intro hag
      have hstep : decodeStep eagain E s data pictures =
          StepOut.cont s2 data1 pictures := by
        unfold decodeStep
        simp [hsend, hnf, hget, hag]
      rw [decodeLoop_succ eagain E fuel s data pictures hnz, hstep]
    · intro hag
      have hstep : decodeStep eagain E s data pictures =
          StepOut.done (Except.ok pictures) := by
        unfold decodeStep
        simp [hsend, hnf, hget, hag]
      rw [decodeLoop_succ eagain E fuel s data pictures hnz, hstep]
  · intro fuel
    induction fuel with
    | zero =>
      intro s data pictures e h
      unfold decodeLoop at h
      by_cases hz : data.sz = 0 <;> simp [hz] at h
    | succ n ih =>
      intro s data pictures e h
      by_cases hz : data.sz = 0
      · unfold decodeLoop at h
        simp [hz] at h
      · rw [decodeLoop_succ eagain E n s data pictures hz] at h
        cases hstep : decodeStep eagain E s data pictures with
        | done r =>
          rw [hstep] at h
          simp at h
          rw [h] at hstep
          exact decodeStep_done_error eagain E s data pictures e hstep
        | cont s2 data2 pics2 =>
          rw [hstep] at h
          exact ih s2 data2 pics2 e h

/-- Claim C2 witness: with a successful send and an always-fatal retrieval,
a 4-byte buffer with one collected picture ends the loop with Ok of that
picture. -/
theorem decode_retrieval_error_semantics_witness :
    decodeLoop 11 testEngineGetFatal 1 () testData4 [testPicture] =
      some (Except.ok [testPicture]) :=
  ((decode_retrieval_error_semantics 11 testEngineGetFatal).1 0 () testData4
    [testPicture] 0 testData4 () (Error.mk (-7)) () (by decide) rfl (by decide)
    rfl).2 (by decide)

end Dav1d
